import Mathlib

/-!
Shallow embedding of the Insights front-end presentation layer: the
resource-binding helpers (`getDocumentResource`, `triggerFetch`), the
chart-block setup, the notebook delete dialog, the toast component, the
type-selector dialog and the dashboard-options computed property.
State-carrying code is embedded as explicit state passing; remote calls
and emitted events are recorded in traces.
-/

namespace Insights

/-! ### Resource binding layer (src/unnamed/part_000) -/

/-- Modelled from the spec: the state of a document resource's `get`
operation, owned by the frappe-ui client library (not part of this
repository).  The spec says the resource exposes a loading flag that is
set while a fetch is in flight; we additionally count in-flight fetches
and total remote calls so the claims can be stated. -/
structure GetOperation where
  loading : Bool
  inFlight : Nat
  remoteCalls : Nat
deriving Repr, DecidableEq

/-- Modelled from the spec: initial state of the `get` operation — idle,
nothing in flight, no remote call performed yet. -/
def initGet : GetOperation := { loading := false, inFlight := 0, remoteCalls := 0 }

/-- Modelled from the spec: `resource.get.fetch()` starts a remote call
and raises the loading flag while the call is in flight. -/
def getFetch (s : GetOperation) : GetOperation :=
  { loading := true, inFlight := s.inFlight + 1, remoteCalls := s.remoteCalls + 1 }

/-- Modelled from the spec: resolution of an in-flight fetch clears the
loading flag.  Resolving when nothing is in flight changes nothing. -/
def fetchResolve (s : GetOperation) : GetOperation :=
  if s.loading then { s with loading := false, inFlight := s.inFlight - 1 } else s

/-- Embeds `resource.triggerFetch` (src/unnamed/part_000, lines 39-41):
`!resource.get.loading && (await resource.get.fetch())` — the fetch is
started only when the loading flag is down. -/
def triggerFetch (s : GetOperation) : GetOperation :=
  if s.loading then s else getFetch s

/-- An external event arriving at one resource instance: a caller
invoking `triggerFetch`, or the pending remote call resolving. -/
inductive ResourceEvent
  | trigger
  | resolve
deriving Repr, DecidableEq

/-- One step of the resource's event loop. -/
def stepResource (s : GetOperation) : ResourceEvent → GetOperation
  | ResourceEvent.trigger => triggerFetch s
  | ResourceEvent.resolve => fetchResolve s

/-- The resource state after a sequence of events from the initial state. -/
def runResource (evs : List ResourceEvent) : GetOperation :=
  evs.foldl stepResource initGet

/-- The invariant tying the loading flag to the in-flight count. -/
def GetInv (s : GetOperation) : Prop :=
  (s.loading = false ∧ s.inFlight = 0) ∨ (s.loading = true ∧ s.inFlight = 1)

/-- A JavaScript-object argument to `createDocumentResource` that may
override the keys the wrapper sets; `...options` spreads last, so a key
present in `options` wins. -/
structure DocResourceOptions where
  doctype : Option String
  name : Option String
  whitelistedMethods : Option (List String)
deriving Repr, DecidableEq

/-- The empty options object (the `options` argument omitted). -/
def noOptions : DocResourceOptions :=
  { doctype := none, name := none, whitelistedMethods := none }

/-- The document resource record produced by `createDocumentResource`. -/
structure DocumentResource where
  doctype : String
  name : String
  whitelistedMethods : List String
deriving Repr, DecidableEq

/-- JavaScript `a || b` for an optional string argument: `undefined`
(absent) and the empty string are falsy, so both fall through to `b`. -/
def jsOrStr (a : Option String) (b : String) : String :=
  match a with
  | none => b
  | some s => if s = "" then b else s

/-- Embeds `getDocumentResource` (src/unnamed/part_000, lines 28-43):
builds the object literal `{ doctype, name: docname || doctype,
whitelistedMethods: getWhitelistedMethods(doctype), ...options }`; the
spread of `options` comes last, so its keys override the defaults.  The
per-doctype whitelist function `getWhitelistedMethods` lives in a module
not shown, so it is passed as a parameter. -/
def getDocumentResource (getWhitelistedMethods : String → List String)
    (doctype : String) (docname : Option String) (options : DocResourceOptions) :
    DocumentResource :=
  { doctype := options.doctype.getD doctype
    name := options.name.getD (jsOrStr docname doctype)
    whitelistedMethods := options.whitelistedMethods.getD (getWhitelistedMethods doctype) }

/-! ### Chart block setup (src/frontend/src/notebook/blocks/chart/ChartBlock.vue, lines 19-27) -/

/-- What the chart block's top-level setup did: how many `createChart`
remote calls were made, which events were emitted (name, payload), and
which chart name `useChart` was bound to. -/
structure ChartSetupResult where
  createChartCalls : Nat
  emitted : List (String × String)
  boundChartName : Option String
deriving Repr, DecidableEq

/-- JavaScript truthiness test `!props.chartName` for an optional string
prop: an absent prop and the empty string are both falsy. -/
def jsFalsyStr (a : Option String) : Bool :=
  match a with
  | none => true
  | some s => s = ""

/-- Embeds the chart block setup: `if (!props.chartName) { const
chartName = await createChart(); emit('setChartName', chartName); chart
= useChart(chartName) } else { chart = useChart(props.chartName) }`.
The name returned by the remote `createChart` call is the parameter
`createdName`. -/
def chartBlockSetup (createdName : String) (chartName : Option String) :
    ChartSetupResult :=
  if jsFalsyStr chartName then
    { createChartCalls := 1
      emitted := [("setChartName", createdName)]
      boundChartName := some createdName }
  else
    { createChartCalls := 0, emitted := [], boundChartName := chartName }

/-! ### Notebook delete dialog (src/frontend/src/notebook/Notebook.vue) -/

/-- An observable action of the notebook page: a remote call on one of
its resources, a write to the dialog's visibility ref, or a router
navigation. -/
inductive NotebookEv
  | callDeleteNotebook
  | setDialog (shown : Bool)
  | callReloadNotebooks
  | pushRoute (route : String)
deriving Repr, DecidableEq

/-- Predicate picking the remote calls out of a trace. -/
def isRemoteCall : NotebookEv → Bool
  | NotebookEv.callDeleteNotebook => true
  | NotebookEv.callReloadNotebooks => true
  | _ => false

/-- State of the notebook page: the delete dialog's visibility, the
sibling notebooks list resource's rows, the current route, and the
trace of observable actions so far. -/
structure NotebookViewState where
  showDeleteDialog : Bool
  notebooksList : List String
  route : String
  trace : List NotebookEv
deriving Repr, DecidableEq

/-- Embeds `handleDelete` (Notebook.vue, lines 39-44): await
`notebook.deleteNotebook()`, set `showDeleteDialog.value = false`, await
`useNotebooks().reload()` (which replaces the notebooks list with the
server's rows, here the parameter `serverNotebooks`), then
`router.push({ name: 'NotebookList' })`. -/
def handleDelete (serverNotebooks : List String) (s : NotebookViewState) :
    NotebookViewState :=
  let s1 := { s with trace := s.trace ++ [NotebookEv.callDeleteNotebook] }
  let s2 := { s1 with showDeleteDialog := false
                      trace := s1.trace ++ [NotebookEv.setDialog false] }
  let s3 := { s2 with notebooksList := serverNotebooks
                      trace := s2.trace ++ [NotebookEv.callReloadNotebooks] }
  { s3 with route := "NotebookList"
            trace := s3.trace ++ [NotebookEv.pushRoute "NotebookList"] }

/-- Embeds the Cancel button (Notebook.vue, line 110):
`@click="showDeleteDialog = false"` — the only effect is the write to
the visibility ref. -/
def cancelDelete (s : NotebookViewState) : NotebookViewState :=
  { s with showDeleteDialog := false
           trace := s.trace ++ [NotebookEv.setDialog false] }

/-! ### Toast component (src/frontend/src/components/Toast.vue) -/

/-- State of one toast instance together with the browser's one-shot
timer queue: the `shown` data field, the current time in milliseconds,
and the due times of the pending `setTimeout` callbacks. -/
structure ToastState where
  shown : Bool
  now : Nat
  timers : List Nat
deriving Repr, DecidableEq

/-- Embeds `data()` (Toast.vue, lines 112-116): `shown` starts false,
before the component is mounted; no timer is pending. -/
def toastData : ToastState := { shown := false, now := 0, timers := [] }

/-- Embeds the `setTimeout` callback (Toast.vue, lines 108-110):
`() => { this.shown = false }`. -/
def toastTimerCallback (s : ToastState) : ToastState := { s with shown := false }

/-- Embeds `mounted()` (Toast.vue, lines 106-111): set `shown = true`
and register a one-shot timer due `timeout * 1000` milliseconds from
now. -/
def toastMounted (timeout : Nat) (s : ToastState) : ToastState :=
  { s with shown := true, timers := s.timers ++ [s.now + timeout * 1000] }

/-- Embeds the manual dismiss button (Toast.vue, lines 35-40):
`@click="shown = false"` — it does not touch the timer queue. -/
def toastDismiss (s : ToastState) : ToastState := { s with shown := false }

/-- The event loop advancing the clock to time `t`: every pending timer
whose due time has been reached fires its callback, and is removed from
the queue. -/
def toastAdvanceTo (t : Nat) (s : ToastState) : ToastState :=
  let fired := (s.timers.filter (fun d => d ≤ t)).foldl
    (fun acc _ => toastTimerCallback acc) s
  { fired with now := t, timers := s.timers.filter (fun d => t < d) }

/-! ### Toast singleton DOM root (Toast.vue, `created`) -/

/-- The id of the toast mount point. -/
def toastRootId : String := "frappeui-toast-root"

/-- Embeds `created()` (Toast.vue, lines 85-105): if
`document.getElementById('frappeui-toast-root')` finds nothing, build
the root element and `document.body.appendChild(root)`.  The DOM is
abstracted to the list of element ids in the document. -/
def toastCreated (dom : List String) : List String :=
  if toastRootId ∈ dom then dom else dom ++ [toastRootId]

/-- The DOM after `n` toast instantiations (each runs the `created`
hook once). -/
def afterCreations (n : Nat) (dom : List String) : List String :=
  match n with
  | 0 => dom
  | k + 1 => toastCreated (afterCreations k dom)

/-! ### Query list page, `openQueryEditor('notebook')` branch
(second document in src/frontend/src/notebook/blocks/chart/ChartBlock.vue,
lines 232-243) -/

/-- A row of the notebooks list resource. -/
structure NotebookRow where
  name : String
  title : String
deriving Repr, DecidableEq

/-- What the notebook branch of `openQueryEditor` did: which notebook
names were passed to `notebooks.createPage`, and the `NotebookPage`
route parameters (notebook, page) pushed. -/
structure QueryEditorOutcome where
  createPageCalls : List String
  route : Option (String × String)
deriving Repr, DecidableEq

/-- Embeds the `type === 'notebook'` branch of `openQueryEditor`:
`const uncategorized = notebooks.list.find(nb => nb.title ===
'Uncategorized'); const page_name = await
notebooks.createPage(uncategorized.name); return router.push(...)`.
The lookup result is dereferenced with no guard; when `find` yields
`undefined` the property access throws, modelled by `none`.  The remote
`createPage` response is the parameter `createPage`. -/
def openQueryEditorNotebook (createPage : String → String)
    (list : List NotebookRow) : Option QueryEditorOutcome :=
  match list.find? (fun nb => nb.title == "Uncategorized") with
  | none => none
  | some uncategorized =>
    some { createPageCalls := [uncategorized.name]
           route := some (uncategorized.name, createPage uncategorized.name) }

/-! ### Dashboard options computed property (ChartBlock.vue, lines 67-74) -/

/-- A row of the dashboards list resource. -/
structure Dashboard where
  title : String
  name : String
deriving Repr, DecidableEq

/-- An entry of the `Autocomplete` options. -/
structure SelectOption where
  label : String
  value : String
deriving Repr, DecidableEq

/-- Model of JavaScript `String.prototype.toLowerCase` on the title: a
string is its character sequence, lowered characterwise. -/
def lowerTitle (s : String) : List Char := s.data.map Char.toLower

/-- Embeds the comparator `(a, b) => a.title.toLowerCase() <
b.title.toLowerCase() ? -1 : 1` passed to `Array.prototype.sort`;
JavaScript `<` on strings is the lexicographic order on the character
sequences. -/
def dashCompare (a b : Dashboard) : Int :=
  if lowerTitle a.title < lowerTitle b.title then -1 else 1

/-- One insertion step of the comparator-driven sort: the element is
placed before the first element it compares less-than. -/
def sortInsert (cmp : Dashboard → Dashboard → Int) (x : Dashboard) :
    List Dashboard → List Dashboard
  | [] => [x]
  | y :: ys => if cmp x y < 0 then x :: y :: ys else y :: sortInsert cmp x ys

/-- Model of JavaScript `Array.prototype.sort(cmp)`: a comparison sort
whose output orders the elements according to `cmp` (insertion sort;
the ECMAScript result for this comparator agrees up to the order of
title-tied elements, which the claims do not distinguish). -/
def jsSort (cmp : Dashboard → Dashboard → Int) (l : List Dashboard) :
    List Dashboard :=
  l.foldr (sortInsert cmp) []

/-- The dashboards list resource as seen by the component. -/
structure DashboardsResource where
  list : List Dashboard
deriving Repr, DecidableEq

/-- Embeds the `dashboardOptions` computed property:
`dashboards.list.sort(cmp).map(d => ({ label: d.title, value: d.name }))`.
`sort` mutates the array it is called on, so evaluation both yields the
options and writes the reordered list back into the shared resource:
the result is the updated resource paired with the options. -/
def dashboardOptions (st : DashboardsResource) :
    DashboardsResource × List SelectOption :=
  let sorted := jsSort dashCompare st.list
  ({ st with list := sorted },
   sorted.map (fun d => { label := d.title, value := d.name }))

/-! ### Type-selector dialog (src/unnamed/part_001) -/

/-- An entry of the `types` prop: label/icon/description/tag plus the
handler, identified here by an id so invocations can be recorded. -/
structure QueryType where
  label : String
  icon : String
  description : String
  tag : Option String
  handlerId : Nat
deriving Repr, DecidableEq

/-- Observable state around the dialog: the `show` model (named
`showModel` because `show` is reserved here), the recorded handler
invocations (handler id, number of arguments), and the `update:show`
emissions of the computed setter. -/
structure TypeDialogState where
  showModel : Bool
  handlerInvocations : List (Nat × Nat)
  emittedUpdateShow : List Bool
deriving Repr, DecidableEq

/-- Embeds the option click handler (src/unnamed/part_001, line 36):
`@click="type.handler()"` — the clicked option's handler is invoked
with zero arguments; nothing assigns to `show`, so the computed setter
emits no `update:show`. -/
def clickType (t : QueryType) (s : TypeDialogState) : TypeDialogState :=
  { s with handlerInvocations := s.handlerInvocations ++ [(t.handlerId, 0)] }

end Insights

namespace Insights

/-! ### Theorems for the resource binding layer -/

theorem getInv_init : GetInv initGet := Or.inl ⟨rfl, rfl⟩

theorem getInv_step (s : GetOperation) (ev : ResourceEvent) (h : GetInv s) :
    GetInv (stepResource s ev) := by
  cases ev with
  | trigger =>
    rcases h with ⟨hl, hf⟩ | ⟨hl, hf⟩
    · exact Or.inr ⟨by simp [stepResource, triggerFetch, hl, getFetch],
        by simp [stepResource, triggerFetch, hl, getFetch, hf]⟩
    · exact Or.inr ⟨by simp [stepResource, triggerFetch, hl],
        by simp [stepResource, triggerFetch, hl, hf]⟩
  | resolve =>
    rcases h with ⟨hl, hf⟩ | ⟨hl, hf⟩
    · exact Or.inl ⟨by simp [stepResource, fetchResolve, hl],
        by simp [stepResource, fetchResolve, hl, hf]⟩
    · exact Or.inl ⟨by simp [stepResource, fetchResolve, hl],
        by simp [stepResource, fetchResolve, hl, hf]⟩

theorem getInv_foldl (evs : List ResourceEvent) (s : GetOperation) (h : GetInv s) :
    GetInv (evs.foldl stepResource s) := by
  induction evs generalizing s with
  | nil => exact h
  | cons ev rest ih => exact ih _ (getInv_step s ev h)

/-- C1: while a fetch is in flight (`get.loading = true`), `triggerFetch`
is a no-op — the state, and in particular the remote-call count, is
unchanged — and along every event sequence from the initial state at
most one fetch is in flight at a time. -/
theorem triggerFetch_noop_while_loading (s : GetOperation) (h : s.loading = true) :
    triggerFetch s = s ∧ (triggerFetch s).remoteCalls = s.remoteCalls ∧
      ∀ evs : List ResourceEvent, (runResource evs).inFlight ≤ 1 := by
  refine ⟨by simp [triggerFetch, h], by simp [triggerFetch, h], ?_⟩
  intro evs
  have hinv := getInv_foldl evs initGet getInv_init
  rcases hinv with ⟨_, hf⟩ | ⟨_, hf⟩ <;> simp [runResource, hf]

/-- Witness for C1 at a concrete loading state. -/
theorem triggerFetch_noop_while_loading_witness :
    triggerFetch { loading := true, inFlight := 1, remoteCalls := 1 } =
        { loading := true, inFlight := 1, remoteCalls := 1 } ∧
      (triggerFetch { loading := true, inFlight := 1, remoteCalls := 1 }).remoteCalls = 1 ∧
      ∀ evs : List ResourceEvent, (runResource evs).inFlight ≤ 1 :=
  triggerFetch_noop_while_loading { loading := true, inFlight := 1, remoteCalls := 1 } rfl

/-- C10 counterexample: the claim fails as stated, because `...options`
spreads after the defaults — an options object carrying a `name` key
overrides the `docname || doctype` default even when `docname` is
omitted, and a `whitelistedMethods` key replaces the per-doctype
whitelist. -/
theorem getDocumentResource_options_override :
    (getDocumentResource (fun _ => ["run"]) "Insights Query" none
        { doctype := none, name := some "custom", whitelistedMethods := some [] }).name ≠
      "Insights Query" ∧
    (getDocumentResource (fun _ => ["run"]) "Insights Query" none
        { doctype := none, name := some "custom", whitelistedMethods := some [] }).whitelistedMethods ≠
      (fun _ => ["run"]) "Insights Query" := by
  constructor <;> simp [getDocumentResource]

/-- C10 amended: when the options object does not carry a `name` key, a
document resource created with an omitted or falsy (empty) `docname`
gets the doctype string as its name; when the options object does not
carry a `whitelistedMethods` key, the resource carries the per-doctype
whitelisted methods. -/
theorem getDocumentResource_defaults (gwm : String → List String)
    (doctype : String) (docname : Option String) (options : DocResourceOptions)
    (hname : options.name = none) (hwm : options.whitelistedMethods = none) :
    ((docname = none ∨ docname = some "") →
      (getDocumentResource gwm doctype docname options).name = doctype) ∧
    (getDocumentResource gwm doctype docname options).whitelistedMethods = gwm doctype := by
  refine ⟨fun hd => ?_, by simp [getDocumentResource, hwm]⟩
  rcases hd with hd | hd <;> simp [getDocumentResource, hname, hd, jsOrStr]

/-- C2 counterexample: the claim fails as stated, because the guard is
the JavaScript truthiness test `!props.chartName` — supplying the empty
string as `chartName` still takes the create path, performing a create
call and binding to the newly created identifier instead of the
supplied one. -/
theorem chartBlockSetup_empty_name_creates :
    (chartBlockSetup "chart-001" (some "")).createChartCalls ≠ 0 ∧
      (chartBlockSetup "chart-001" (some "")).boundChartName ≠ some "" := by
  constructor <;> simp [chartBlockSetup, jsFalsyStr]

/-- C2 amended: when the `chartName` prop is absent (or empty, hence
falsy), the setup performs exactly one `createChart` call, emits
`setChartName` with the returned identifier, and binds the chart editor
to that identifier; when a non-empty `chartName` is supplied, it
performs no create call and binds to the supplied identifier. -/
theorem chartBlockSetup_spec (createdName : String) (chartName : Option String) :
    (jsFalsyStr chartName = true →
      chartBlockSetup createdName chartName =
        { createChartCalls := 1
          emitted := [("setChartName", createdName)]
          boundChartName := some createdName }) ∧
    (∀ s : String, chartName = some s → s ≠ "" →
      chartBlockSetup createdName chartName =
        { createChartCalls := 0, emitted := [], boundChartName := some s }) := by
  constructor
  · intro h
    simp [chartBlockSetup, h]
  · intro s hs hne
    subst hs
    simp [chartBlockSetup, jsFalsyStr, hne]

/-- Witness for C2 amended at concrete inputs: no prop supplied. -/
theorem chartBlockSetup_spec_witness :
    chartBlockSetup "chart-001" none =
        { createChartCalls := 1
          emitted := [("setChartName", "chart-001")]
          boundChartName := some "chart-001" } ∧
      chartBlockSetup "chart-001" (some "CHT-7") =
        { createChartCalls := 0, emitted := [], boundChartName := some "CHT-7" } :=
  ⟨(chartBlockSetup_spec "chart-001" none).1 rfl,
   (chartBlockSetup_spec "chart-001" (some "CHT-7")).2 "CHT-7" rfl (by decide)⟩

/-- C3: confirming the notebook delete dialog first performs the remote
delete, then closes the dialog, then performs the remote reload of the
sibling notebooks list (adopting the server's rows), then navigates to
the notebook list; canceling closes the dialog, adds no remote call to
the trace, and leaves the notebooks list untouched. -/
theorem notebook_delete_dialog_spec (serverNotebooks : List String)
    (s : NotebookViewState) :
    (handleDelete serverNotebooks s).trace =
        s.trace ++ [NotebookEv.callDeleteNotebook, NotebookEv.setDialog false,
          NotebookEv.callReloadNotebooks, NotebookEv.pushRoute "NotebookList"] ∧
      (handleDelete serverNotebooks s).showDeleteDialog = false ∧
      (handleDelete serverNotebooks s).notebooksList = serverNotebooks ∧
      (handleDelete serverNotebooks s).route = "NotebookList" ∧
      (cancelDelete s).showDeleteDialog = false ∧
      (cancelDelete s).trace.filter isRemoteCall = s.trace.filter isRemoteCall ∧
      (cancelDelete s).notebooksList = s.notebooksList ∧
      (cancelDelete s).route = s.route := by
  refine ⟨by simp [handleDelete], by simp [handleDelete], by simp [handleDelete],
    by simp [handleDelete], by simp [cancelDelete], ?_, by simp [cancelDelete],
    by simp [cancelDelete]⟩
  simp [cancelDelete, List.filter_append, isRemoteCall]

theorem toastCreated_of_mem (dom : List String) (h : toastRootId ∈ dom) :
    toastCreated dom = dom := by
  simp [toastCreated, h]

theorem count_afterCreations (dom : List String)
    (h0 : dom.count toastRootId = 0) :
    ∀ n : Nat, 1 ≤ n → (afterCreations n dom).count toastRootId = 1 := by
  intro n hn
  induction n with
  | zero => exact absurd hn (by decide)
  | succ k ih =>
    rcases Nat.eq_zero_or_pos k with hk | hk
    · subst hk
      have hnotmem : toastRootId ∉ dom := List.count_eq_zero.mp h0
      simp [afterCreations, toastCreated, hnotmem, h0]
    · have hcount := ih hk
      have hmem : toastRootId ∈ afterCreations k dom := by
        have : 0 < (afterCreations k dom).count toastRootId := by omega
        exact List.count_pos_iff.mp this
      simpa [afterCreations, toastCreated_of_mem _ hmem] using hcount

/-- C4: `shown` is false before mount and true on mount; once the
timeout elapses the timer callback sets it false; a manual dismiss
before the timeout sets it false immediately while the timer stays
pending, and when that timer later fires its callback is a no-op,
leaving `shown` false exactly as it already was. -/
theorem toast_shown_lifecycle (timeout elapsed : Nat)
    (h : timeout * 1000 ≤ elapsed) :
    toastData.shown = false ∧
      (toastMounted timeout toastData).shown = true ∧
      (toastAdvanceTo elapsed (toastMounted timeout toastData)).shown = false ∧
      (toastDismiss (toastMounted timeout toastData)).shown = false ∧
      (toastDismiss (toastMounted timeout toastData)).timers = [timeout * 1000] ∧
      (toastTimerCallback (toastDismiss (toastMounted timeout toastData))).shown =
        (toastDismiss (toastMounted timeout toastData)).shown ∧
      (toastAdvanceTo elapsed (toastDismiss (toastMounted timeout toastData))).shown =
        false := by
  refine ⟨rfl, rfl, ?_, rfl, by simp [toastDismiss, toastMounted, toastData], rfl, ?_⟩
  · simp [toastAdvanceTo, toastMounted, toastData, toastTimerCallback,
      List.filter_cons, h]
  · simp [toastAdvanceTo, toastDismiss, toastMounted, toastData,
      toastTimerCallback, List.filter_cons, h]

/-- Witness for C4 with the default five-second timeout, observed at
five seconds. -/
theorem toast_shown_lifecycle_witness :
    toastData.shown = false ∧
      (toastMounted 5 toastData).shown = true ∧
      (toastAdvanceTo 5000 (toastMounted 5 toastData)).shown = false ∧
      (toastDismiss (toastMounted 5 toastData)).shown = false ∧
      (toastDismiss (toastMounted 5 toastData)).timers = [5 * 1000] ∧
      (toastTimerCallback (toastDismiss (toastMounted 5 toastData))).shown =
        (toastDismiss (toastMounted 5 toastData)).shown ∧
      (toastAdvanceTo 5000 (toastDismiss (toastMounted 5 toastData))).shown = false :=
  toast_shown_lifecycle 5 5000 (by decide)

/-- C5: starting from a document with no element of id
`frappeui-toast-root`, any positive number of toast instantiations
leaves exactly one such root in the document, and the `created` hook
never removes an element. -/
theorem toast_root_singleton (dom : List String) (n : Nat)
    (h0 : dom.count toastRootId = 0) (hn : 1 ≤ n) :
    (afterCreations n dom).count toastRootId = 1 ∧
      ∀ (dom' : List String) (d : String), d ∈ dom' → d ∈ toastCreated dom' := by
  refine ⟨count_afterCreations dom h0 n hn, ?_⟩
  intro dom' d hd
  by_cases hmem : toastRootId ∈ dom' <;> simp [toastCreated, hmem, hd]

/-- Witness for C5: an empty document, two instantiations. -/
theorem toast_root_singleton_witness :
    (afterCreations 2 []).count toastRootId = 1 ∧
      ∀ (dom' : List String) (d : String), d ∈ dom' → d ∈ toastCreated dom' :=
  toast_root_singleton [] 2 (by decide) (by decide)

/-- Witness for C10 amended at a concrete call. -/
theorem getDocumentResource_defaults_witness :
    ((none = (none : Option String) ∨ (none : Option String) = some "") →
      (getDocumentResource (fun _ => ["run"]) "Insights Query" none noOptions).name =
        "Insights Query") ∧
    (getDocumentResource (fun _ => ["run"]) "Insights Query" none noOptions).whitelistedMethods =
      (fun _ => ["run"]) "Insights Query" :=
  getDocumentResource_defaults (fun _ => ["run"]) "Insights Query" none noOptions rfl rfl

/-- C6: the notebook branch of `openQueryEditor` succeeds exactly when
the notebooks list holds a notebook titled `Uncategorized` (otherwise
the unguarded dereference of the `find` result fails), and whenever the
lookup finds such a notebook the branch creates one page in it and
navigates to that page. -/
theorem openQueryEditorNotebook_spec (createPage : String → String)
    (list : List NotebookRow) :
    ((openQueryEditorNotebook createPage list).isSome ↔
        ∃ nb ∈ list, nb.title = "Uncategorized") ∧
      ∀ nb : NotebookRow,
        list.find? (fun r => r.title == "Uncategorized") = some nb →
          openQueryEditorNotebook createPage list =
            some { createPageCalls := [nb.name]
                   route := some (nb.name, createPage nb.name) } := by
  constructor
  · cases hfind : list.find? (fun r => r.title == "Uncategorized") with
    | none =>
      have hall := List.find?_eq_none.mp hfind
      have hres : openQueryEditorNotebook createPage list = none := by
        simp [openQueryEditorNotebook, hfind]
      rw [hres]
      constructor
      · intro h
        simp at h
      · rintro ⟨nb, hmem, htitle⟩
        exact absurd (by simp [htitle]) (hall nb hmem)
    | some nb =>
      have hmem := List.mem_of_find?_eq_some hfind
      have htitle := List.find?_some hfind
      have hres : (openQueryEditorNotebook createPage list).isSome = true := by
        simp [openQueryEditorNotebook, hfind]
      rw [hres]
      exact ⟨fun _ => ⟨nb, hmem, by simpa using htitle⟩, fun _ => rfl⟩
  · intro nb hfind
    simp [openQueryEditorNotebook, hfind]

/-- Witness for C6 at a concrete notebooks list containing an
`Uncategorized` notebook. -/
theorem openQueryEditorNotebook_spec_witness :
    openQueryEditorNotebook (fun n => n ++ "-page-1")
        [{ name := "NB-1", title := "Uncategorized" }] =
      some { createPageCalls := ["NB-1"]
             route := some ("NB-1", "NB-1-page-1") } :=
  (openQueryEditorNotebook_spec (fun n => n ++ "-page-1")
    [{ name := "NB-1", title := "Uncategorized" }]).2
    { name := "NB-1", title := "Uncategorized" } rfl

theorem sortInsert_perm (cmp : Dashboard → Dashboard → Int) (x : Dashboard) :
    ∀ l : List Dashboard, (sortInsert cmp x l).Perm (x :: l) := by
  intro l
  induction l with
  | nil => exact List.Perm.refl _
  | cons y ys ih =>
    by_cases h : cmp x y < 0
    · simp [sortInsert, h]
    · simp only [sortInsert, h, if_false]
      exact (ih.cons y).trans (List.Perm.swap x y ys)

theorem jsSort_perm (cmp : Dashboard → Dashboard → Int) :
    ∀ l : List Dashboard, (jsSort cmp l).Perm l := by
  intro l
  induction l with
  | nil => exact List.Perm.refl _
  | cons a as ih =>
    have hstep : jsSort cmp (a :: as) = sortInsert cmp a (jsSort cmp as) := rfl
    rw [hstep]
    exact (sortInsert_perm cmp a (jsSort cmp as)).trans (ih.cons a)

/-- The key order the comparator induces: non-decreasing lowercased
titles. -/
def TitleLE (a b : Dashboard) : Prop := lowerTitle a.title ≤ lowerTitle b.title

theorem dashCompare_lt (a b : Dashboard) (h : dashCompare a b < 0) : TitleLE a b := by
  by_cases hlt : lowerTitle a.title < lowerTitle b.title
  · exact le_of_lt hlt
  · simp [dashCompare, hlt] at h

theorem dashCompare_ge (a b : Dashboard) (h : ¬ dashCompare a b < 0) : TitleLE b a := by
  by_cases hlt : lowerTitle a.title < lowerTitle b.title
  · simp [dashCompare, hlt] at h
  · exact le_of_not_lt hlt

theorem sortInsert_pairwise (x : Dashboard) (l : List Dashboard)
    (hl : l.Pairwise TitleLE) :
    (sortInsert dashCompare x l).Pairwise TitleLE := by
  induction l with
  | nil => simp [sortInsert, List.Pairwise]
  | cons y ys ih =>
    rcases List.pairwise_cons.mp hl with ⟨hy, hys⟩
    by_cases h : dashCompare x y < 0
    · have hxy : TitleLE x y := dashCompare_lt x y h
      simp only [sortInsert, if_pos h]
      refine List.pairwise_cons.mpr ⟨?_, hl⟩
      intro z hz
      rcases List.mem_cons.mp hz with hz | hz
      · exact hz ▸ hxy
      · exact le_trans hxy (hy z hz)
    · have hyx : TitleLE y x := dashCompare_ge x y h
      simp only [sortInsert, if_neg h]
      refine List.pairwise_cons.mpr ⟨?_, ih hys⟩
      intro z hz
      have hz' : z ∈ x :: ys := (sortInsert_perm dashCompare x ys).mem_iff.mp hz
      rcases List.mem_cons.mp hz' with hz' | hz'
      · exact hz' ▸ hyx
      · exact hy z hz'

theorem jsSort_pairwise (l : List Dashboard) :
    (jsSort dashCompare l).Pairwise TitleLE := by
  induction l with
  | nil => simp [jsSort, List.Pairwise]
  | cons a as ih => exact sortInsert_pairwise a (jsSort dashCompare as) ih

/-- C7: the computed dashboard options are exactly one
`(label := title, value := name)` entry per dashboard (a permutation of
the projected list), ordered non-decreasingly by the lowercased
label/title. -/
theorem dashboardOptions_sorted_complete (st : DashboardsResource) :
    ((dashboardOptions st).2).Perm
        (st.list.map (fun d => { label := d.title, value := d.name : SelectOption })) ∧
      ((dashboardOptions st).2).Pairwise
        (fun o1 o2 => lowerTitle o1.label ≤ lowerTitle o2.label) := by
  constructor
  · exact (jsSort_perm dashCompare st.list).map _
  · have hpw := jsSort_pairwise st.list
    exact List.pairwise_map.mpr hpw

/-- C9: evaluating `dashboardOptions` is not read-only — it writes the
reordered list back into the shared dashboards resource on every
evaluation, and on a concretely unsorted list the stored list differs
from the one before the evaluation. -/
theorem dashboardOptions_mutates_list :
    (∀ st : DashboardsResource,
        ((dashboardOptions st).1).list = jsSort dashCompare st.list) ∧
      ((dashboardOptions
            { list := [{ title := "Revenue", name := "DB-1" },
                       { title := "Expenses", name := "DB-2" }] }).1).list ≠
        [{ title := "Revenue", name := "DB-1" },
         { title := "Expenses", name := "DB-2" }] := by
  refine ⟨fun st => rfl, ?_⟩
  decide

/-- C8: clicking an option of the type-selector dialog records exactly
one invocation — that option's handler, with zero arguments — and
changes neither the `show` model nor the `update:show` emissions
(closing the dialog is left to the caller). -/
theorem clickType_spec (t : QueryType) (s : TypeDialogState) :
    (clickType t s).showModel = s.showModel ∧
      (clickType t s).emittedUpdateShow = s.emittedUpdateShow ∧
      (clickType t s).handlerInvocations =
        s.handlerInvocations ++ [(t.handlerId, 0)] :=
  ⟨rfl, rfl, rfl⟩

end Insights
